import Mathlib

/-!
Verification of the Header block plugin (`src/src/index.js` and `src/unnamed/part_000`)

Shallow embedding of the Header block component in Lean 4.  The repository
contains two variants of the same class:

* `HeaderA` embeds `src/src/index.js` — levels H1/H2/H3 (numbers 1,2,3),
  an alignment registry (`left`/`center`/`right`), default level
  `this.levels[1]` (number 2), default align `this.align[0]` (`left`).
* `HeaderB` embeds `src/unnamed/part_000` — levels H2/H3/H4 (numbers 2,3,4),
  no alignment, default level `this.levels[2]` (number 4).

JavaScript dynamic values that can reach the component are modelled by
`RawData` / `RawRecord`; a thrown `TypeError` is modelled by
`Except.error ()`.  SVG icon strings carried by the registries are omitted:
no operation of the component reads them (they are only copied into
`innerHTML` of settings buttons, which no claim mentions).
-/

/-- A raw JavaScript value found in a record's `level` field.
`parseInt` of a number yields the number (we restrict to integers, which is
all the host wire format carries); `parseInt` of anything non-numeric
yields `NaN`, modelled by `nonNumeric`. -/
inductive RawLevel where
  | num (n : ℤ)
  | nonNumeric
deriving DecidableEq, Repr

/-- The fields of a raw JavaScript object passed as block data.  `none`
models an absent field (`undefined`).  Variant B ignores `align`. -/
structure RawRecord where
  text : Option String
  level : Option RawLevel
  align : Option String
deriving DecidableEq, Repr

/-- A raw JavaScript value passed as block data.
`jsNull` is JavaScript `null`: note `typeof null === 'object'`, so the
`typeof data !== 'object'` guard in `normalizeData` does NOT replace it,
and the subsequent `data.text` access throws a `TypeError`.
`undef` is `undefined` (`typeof` is `'undefined'`, so the guard replaces it,
but property access on it in the constructor throws).
`prim` is any other non-object primitive (number, string, boolean):
the guard replaces it with `{}`. -/
inductive RawData where
  | undef
  | jsNull
  | prim
  | record (r : RawRecord)
deriving DecidableEq, Repr

/-- JavaScript `x || d` where `x` is a possibly-absent string field:
`undefined` and `''` are falsy. -/
def jsOrOpt (x : Option String) (d : String) : String :=
  match x with
  | some s => if s = "" then d else s
  | none => d

/-- JavaScript `s || d` where `s` is already a string: `''` is falsy. -/
def jsOrString (s d : String) : String :=
  if s = "" then d else s

/-- `parseInt(field)`: `some n` when the field holds a number, `none`
(`NaN`) when it is absent or non-numeric. -/
def parseIntField : Option RawLevel → Option ℤ
  | some (.num n) => some n
  | some .nonNumeric => none
  | none => none

/-- JavaScript `parseInt(field) || dflt`: `NaN` and `0` are falsy. -/
def levelOrDefault (l : Option RawLevel) (dflt : ℤ) : ℤ :=
  match parseIntField l with
  | some n => if n = 0 then dflt else n
  | none => dflt

/-- The `text` field of a raw value (`undefined` unless it is a record). -/
def rawText : RawData → Option String
  | .record r => r.text
  | _ => none

/-- The `level` field of a raw value (`undefined` unless it is a record). -/
def rawLevel : RawData → Option RawLevel
  | .record r => r.level
  | _ => none

/-- The `align` field of a raw value (`undefined` unless it is a record). -/
def rawAlign : RawData → Option String
  | .record r => r.align
  | _ => none

/-- JavaScript `String.prototype.trim()`: strip whitespace from both ends
(modelled over the character list so that it evaluates in the kernel). -/
def jsTrim (s : String) : String :=
  ⟨((s.data.dropWhile Char.isWhitespace).reverse.dropWhile
      Char.isWhitespace).reverse⟩

/-- Assignment `el.style.textAlign = v`: assigning `undefined` produces the
invalid CSS text `"undefined"`, which the style engine ignores, leaving the
previous value; assigning a string stores it. -/
def styleAssign (old : String) (v : Option String) : String :=
  match v with
  | some s => s
  | none => old

/-- An entry of the `levels` registry (`{number, tag, svg}`; the `svg`
icon string is omitted, nothing the claims touch reads it). -/
structure LevelEntry where
  number : ℤ
  tag : String
deriving DecidableEq, Repr

/-- An entry of the `align` registry (`{align, svg}`; icon omitted). -/
structure AlignEntry where
  align : String
deriving DecidableEq, Repr

/-- Pasted content as seen by `onPaste` (`event.detail.data`). -/
structure PasteContent where
  tagName : String
  innerHTML : String
deriving DecidableEq, Repr

namespace HeaderA

/-- The canonical block data produced by `normalizeData` in
`src/src/index.js`: `{text, level, align}`. -/
structure HeaderData where
  text : String
  level : ℤ
  align : String
deriving DecidableEq, Repr

/-- `get levels` of `src/src/index.js` (icons omitted). -/
def levels : List LevelEntry :=
  [⟨1, "H1"⟩, ⟨2, "H2"⟩, ⟨3, "H3"⟩]

/-- `get align` of `src/src/index.js` (icons omitted). -/
def aligns : List AlignEntry :=
  [⟨"left"⟩, ⟨"center"⟩, ⟨"right"⟩]

/-- `get defaultLevel`: `this.levels[1]`. -/
def defaultLevel : LevelEntry := levels.getD 1 ⟨0, ""⟩

/-- `get defaultAlign`: `this.align[0]`. -/
def defaultAlign : AlignEntry := aligns.getD 0 ⟨""⟩

/-- `normalizeData(data)`.  The guard `typeof data !== 'object'` replaces
non-objects (`undef`, `prim`) with `{}`; JavaScript `null` has
`typeof null === 'object'`, so it survives the guard and the `data.text`
access throws (`Except.error`). -/
def normalizeData : RawData → Except Unit HeaderData
  | .jsNull => .error ()
  | .undef => .ok ⟨"", defaultLevel.number, defaultAlign.align⟩
  | .prim => .ok ⟨"", defaultLevel.number, defaultAlign.align⟩
  | .record r =>
      .ok ⟨jsOrOpt r.text "",
           levelOrDefault r.level defaultLevel.number,
           jsOrOpt r.align defaultAlign.align⟩

/-- `get currentLevel`: `this.levels.find(l => l.number === this._data.level)`,
falling back to `defaultLevel`. -/
def currentLevel (d : HeaderData) : LevelEntry :=
  (levels.find? fun e => e.number == d.level).getD defaultLevel

/-- `get currentAlign`: `this.align.find(a => a.align === this._data.align)`,
falling back to `defaultAlign`. -/
def currentAlign (d : HeaderData) : AlignEntry :=
  (aligns.find? fun e => e.align == d.align).getD defaultAlign

/-- The rendered heading element: tag, `innerHTML`, `style.textAlign`,
`dataset.placeholder`, and whether it has a `parentNode`. -/
structure Element where
  tag : String
  innerHTML : String
  textAlign : String
  placeholder : String
  attached : Bool
deriving DecidableEq, Repr

/-- The component's mutable state: `this._CSS.align`, the
`config.placeholder` setting, `this._data` and `this._element`. -/
structure HeaderState where
  cssAlign : String
  placeholder : Option String
  data : HeaderData
  element : Element
deriving DecidableEq, Repr

/-- `getTag()`: a fresh element tagged `this.currentLevel.tag`, with
`innerHTML = this._data.text || ''`, `style.textAlign = this._CSS.align`
and `dataset.placeholder = this._settings.placeholder || ''`. -/
def getTag (cssAlign : String) (placeholder : Option String)
    (d : HeaderData) : Element :=
  ⟨(currentLevel d).tag, jsOrString d.text "", cssAlign,
   jsOrOpt placeholder "", false⟩

/-- The constructor: sets `this._CSS.align = data.align || 'left'` (a
property access that throws on `null`/`undefined` data), then
`this._data = this.normalizeData(data)` and `this._element = this.getTag()`. -/
def construct (data : RawData) (placeholder : Option String) :
    Except Unit HeaderState :=
  match data with
  | .jsNull => .error ()
  | .undef => .error ()
  | data =>
      let cssAlign := jsOrOpt (rawAlign data) "left"
      match normalizeData data with
      | .error e => .error e
      | .ok nd => .ok ⟨cssAlign, placeholder, nd, getTag cssAlign placeholder nd⟩

/-- `set data(data)`: normalize and store; if `data.level !== undefined`
and the element is in the DOM, build a replacement tag carrying the old
displayed content and `style.textAlign = data.align`, and swap it in;
finally, if `data.text !== undefined`, overwrite the displayed content
with `this._data.text || ''`. -/
def setData (st : HeaderState) (raw : RawData) : Except Unit HeaderState :=
  match normalizeData raw with
  | .error e => .error e
  | .ok nd =>
    let st1 : HeaderState := { st with data := nd }
    let st2 : HeaderState :=
      if rawLevel raw ≠ none ∧ st1.element.attached then
        let fresh := getTag st1.cssAlign st1.placeholder st1.data
        let fresh : Element :=
          { fresh with
              innerHTML := st1.element.innerHTML,
              textAlign := styleAssign fresh.textAlign (rawAlign raw),
              attached := true }
        { st1 with element := fresh }
      else st1
    if rawText raw ≠ none then
      .ok { st2 with
              element := { st2.element with
                             innerHTML := jsOrString st2.data.text "" } }
    else
      .ok st2

/-- `get data`: refreshes `this._data` from the live element and the
current registry entries, and returns it (value, updated state). -/
def dataGet (st : HeaderState) : HeaderData × HeaderState :=
  let d : HeaderData :=
    ⟨st.element.innerHTML, (currentLevel st.data).number,
     (currentAlign st.data).align⟩
  (d, { st with data := d })

/-- `merge(data)`: `{text: this.data.text + data.text, level: this.data.level,
align: this.data.align}` assigned back through the data setter. -/
def merge (st : HeaderState) (other : HeaderData) : Except Unit HeaderState :=
  let cur := (dataGet st).1
  let st1 := (dataGet st).2
  setData st1 (.record ⟨some (cur.text ++ other.text),
                        some (.num cur.level), some cur.align⟩)

/-- `validate(blockData)`: `blockData.text.trim() !== ''`; throws when
`text` is absent (`undefined.trim()`). -/
def validate (blockData : RawRecord) : Except Unit Bool :=
  match blockData.text with
  | some s => .ok (jsTrim s != "")
  | none => .error ()

/-- `save(toolsContent)`: `{text: toolsContent.innerHTML,
level: this.currentLevel.number, align: this.currentAlign.align}`. -/
def save (st : HeaderState) (toolsContent : Element) : HeaderData :=
  ⟨toolsContent.innerHTML, (currentLevel st.data).number,
   (currentAlign st.data).align⟩

/-- What a settings button stores: `dataset.level` or `dataset.align`. -/
inductive BtnData where
  | level (n : ℤ)
  | align (a : String)
deriving DecidableEq, Repr

/-- A settings button: its dataset entry and whether it carries the
`settingsButtonActive` class. -/
structure Button where
  data : BtnData
  active : Bool
deriving DecidableEq, Repr

/-- `renderSettings()`: one button per level (highlighted iff
`this.currentLevel.number === level.number`) followed by one button per
alignment (highlighted iff `this.currentAlign.align === item.align`). -/
def renderSettings (st : HeaderState) : List Button :=
  (levels.map fun l =>
    ⟨.level l.number, (currentLevel st.data).number == l.number⟩) ++
  (aligns.map fun a =>
    ⟨.align a.align, (currentAlign st.data).align == a.align⟩)

/-- The button update in `setLevel(level)`: every button with a
`dataset.level` gets the active class toggled to
`parseInt(button.dataset.level) === level`; buttons without one
(the alignment buttons) are skipped. -/
def setLevelButtons (k : ℤ) (btns : List Button) : List Button :=
  btns.map fun b =>
    match b.data with
    | .level n => ⟨.level n, n == k⟩
    | .align a => ⟨.align a, b.active⟩

/-- The button update in `setAlign(align)`: every button with a
`dataset.align` gets the active class toggled to
`button.dataset.align === align`; level buttons are skipped. -/
def setAlignButtons (a : String) (btns : List Button) : List Button :=
  btns.map fun b =>
    match b.data with
    | .level n => ⟨.level n, b.active⟩
    | .align x => ⟨.align x, x == a⟩

/-- `setLevel(level)`: `this.data = {level, align: this.data.align,
text: this.data.text}`, then the button toggle. -/
def setLevel (st : HeaderState) (btns : List Button) (k : ℤ) :
    Except Unit (HeaderState × List Button) :=
  let cur := (dataGet st).1
  let st1 := (dataGet st).2
  match setData st1 (.record ⟨some cur.text, some (.num k), some cur.align⟩) with
  | .error e => .error e
  | .ok st2 => .ok (st2, setLevelButtons k btns)

/-- `setAlign(align)`: `this.data = {align, level: this.data.level,
text: this.data.text}`, then the button toggle. -/
def setAlign (st : HeaderState) (btns : List Button) (a : String) :
    Except Unit (HeaderState × List Button) :=
  let cur := (dataGet st).1
  let st1 := (dataGet st).2
  match setData st1 (.record ⟨some cur.text, some (.num cur.level), some a⟩) with
  | .error e => .error e
  | .ok st2 => .ok (st2, setAlignButtons a btns)

/-- Observer: is this settings button a level-group button
(does it carry a `dataset.level`)? -/
def isLevelBtn : Button → Bool
  | ⟨.level _, _⟩ => true
  | ⟨.align _, _⟩ => false

/-- Observer: is this settings button an alignment-group button
(does it carry a `dataset.align`)? -/
def isAlignBtn : Button → Bool
  | ⟨.level _, _⟩ => false
  | ⟨.align _, _⟩ => true

/-- `onPaste(event)`: level defaults to 2, `H1` maps to 1, `H3` to 3
(the `switch` has no other cases); align is always `'left'`; the result is
assigned through the data setter. -/
def onPaste (st : HeaderState) (content : PasteContent) :
    Except Unit HeaderState :=
  let level : ℤ :=
    if content.tagName = "H1" then 1
    else if content.tagName = "H3" then 3
    else 2
  setData st (.record ⟨some content.innerHTML, some (.num level), some "left"⟩)

end HeaderA

namespace HeaderB

/-- The canonical block data of `src/unnamed/part_000`: `{text, level}`
(this variant carries no alignment). -/
structure HeaderData where
  text : String
  level : ℤ
deriving DecidableEq, Repr

/-- `get levels` of `src/unnamed/part_000` (icons omitted). -/
def levels : List LevelEntry :=
  [⟨2, "H2"⟩, ⟨3, "H3"⟩, ⟨4, "H4"⟩]

/-- `get defaultLevel`: `this.levels[2]` (the comment in the source still
says "Use H2 as default header", but `levels[2]` is the H4 entry). -/
def defaultLevel : LevelEntry := levels.getD 2 ⟨0, ""⟩

/-- `normalizeData(data)` of the variant without alignment. -/
def normalizeData : RawData → Except Unit HeaderData
  | .jsNull => .error ()
  | .undef => .ok ⟨"", defaultLevel.number⟩
  | .prim => .ok ⟨"", defaultLevel.number⟩
  | .record r =>
      .ok ⟨jsOrOpt r.text "", levelOrDefault r.level defaultLevel.number⟩

/-- `get currentLevel` of the variant without alignment. -/
def currentLevel (d : HeaderData) : LevelEntry :=
  (levels.find? fun e => e.number == d.level).getD defaultLevel

/-- The rendered element of variant B (no `style.textAlign`). -/
structure Element where
  tag : String
  innerHTML : String
  placeholder : String
  attached : Bool
deriving DecidableEq, Repr

/-- Variant B component state. -/
structure HeaderState where
  placeholder : Option String
  data : HeaderData
  element : Element
deriving DecidableEq, Repr

/-- `getTag()` of variant B. -/
def getTag (placeholder : Option String) (d : HeaderData) : Element :=
  ⟨(currentLevel d).tag, jsOrString d.text "", jsOrOpt placeholder "", false⟩

/-- The constructor of variant B. -/
def construct (data : RawData) (placeholder : Option String) :
    Except Unit HeaderState :=
  match data with
  | .jsNull => .error ()
  | .undef => .error ()
  | data =>
      match normalizeData data with
      | .error e => .error e
      | .ok nd => .ok ⟨placeholder, nd, getTag placeholder nd⟩

/-- `set data(data)` of variant B (no align style on the swapped tag). -/
def setData (st : HeaderState) (raw : RawData) : Except Unit HeaderState :=
  match normalizeData raw with
  | .error e => .error e
  | .ok nd =>
    let st1 : HeaderState := { st with data := nd }
    let st2 : HeaderState :=
      if rawLevel raw ≠ none ∧ st1.element.attached then
        let fresh := getTag st1.placeholder st1.data
        let fresh : Element :=
          { fresh with innerHTML := st1.element.innerHTML, attached := true }
        { st1 with element := fresh }
      else st1
    if rawText raw ≠ none then
      .ok { st2 with
              element := { st2.element with
                             innerHTML := jsOrString st2.data.text "" } }
    else
      .ok st2

/-- `get data` of variant B. -/
def dataGet (st : HeaderState) : HeaderData × HeaderState :=
  let d : HeaderData := ⟨st.element.innerHTML, (currentLevel st.data).number⟩
  (d, { st with data := d })

/-- `merge(data)` of variant B. -/
def merge (st : HeaderState) (other : HeaderData) : Except Unit HeaderState :=
  let cur := (dataGet st).1
  let st1 := (dataGet st).2
  setData st1 (.record ⟨some (cur.text ++ other.text),
                        some (.num cur.level), none⟩)

/-- `save(toolsContent)` of variant B. -/
def save (st : HeaderState) (toolsContent : Element) : HeaderData :=
  ⟨toolsContent.innerHTML, (currentLevel st.data).number⟩

/-- `onPaste(event)` of variant B: level defaults to 2; `H2`, `H3`, `H4`
map to 2, 3, 4. -/
def onPaste (st : HeaderState) (content : PasteContent) :
    Except Unit HeaderState :=
  let level : ℤ :=
    if content.tagName = "H2" then 2
    else if content.tagName = "H3" then 3
    else if content.tagName = "H4" then 4
    else 2
  setData st (.record ⟨some content.innerHTML, some (.num level), none⟩)

end HeaderB

/-- Re-inject a canonical variant-A record as raw input (every field
present), as happens when a previously normalized record is normalized
again. -/
def recordToRawA (d : HeaderA.HeaderData) : RawData :=
  .record ⟨some d.text, some (.num d.level), some d.align⟩

/-- Re-inject a canonical variant-B record as raw input (`text` and `level`
present, no `align` field in this variant). -/
def recordToRawB (d : HeaderB.HeaderData) : RawData :=
  .record ⟨some d.text, some (.num d.level), none⟩

/-- The variant-A state constructed from `{data: {}, config: {}}`:
data `{text: '', level: 2, align: 'left'}`, a detached `H2` element. -/
def stA0 : HeaderA.HeaderState :=
  ⟨"left", none, ⟨"", 2, "left"⟩, ⟨"H2", "", "left", "", false⟩⟩

/-- The variant-B state constructed from `{data: {}, config: {}}`:
data `{text: '', level: 4}`, a detached `H4` element. -/
def stB0 : HeaderB.HeaderState :=
  ⟨none, ⟨"", 4⟩, ⟨"H4", "", "", false⟩⟩

/-- The variant-A state constructed from
`{data: {text: 'Hi', level: 3, align: 'center'}, config: {placeholder: 'Title'}}`. -/
def sampleState : HeaderA.HeaderState :=
  ⟨"center", some "Title", ⟨"Hi", 3, "center"⟩,
   ⟨"H3", "Hi", "center", "Title", false⟩⟩

/-! Helper lemmas -/

lemma jsOrOpt_some_empty (s : String) : jsOrOpt (some s) "" = s := by
  rcases eq_or_ne s "" with h | h <;> simp [jsOrOpt, h]

lemma jsOrString_empty (s : String) : jsOrString s "" = s := by
  rcases eq_or_ne s "" with h | h <;> simp [jsOrString, h]

lemma jsOrOpt_ne_empty (x : Option String) (d : String) (hd : d ≠ "") :
    jsOrOpt x d ≠ "" := by
  cases x with
  | none => simpa [jsOrOpt] using hd
  | some s => rcases eq_or_ne s "" with h | h <;> simp [jsOrOpt, h, hd]

lemma jsOrOpt_some_of_ne (s d : String) (hs : s ≠ "") : jsOrOpt (some s) d = s := by
  simp [jsOrOpt, hs]

lemma levelOrDefault_num (n : ℤ) (dflt : ℤ) (hn : n ≠ 0) :
    levelOrDefault (some (.num n)) dflt = n := by
  simp [levelOrDefault, parseIntField, hn]

lemma levelOrDefault_ne_zero (l : Option RawLevel) (dflt : ℤ) (hd : dflt ≠ 0) :
    levelOrDefault l dflt ≠ 0 := by
  unfold levelOrDefault
  rcases parseIntField l with _ | n
  · simpa using hd
  · rcases eq_or_ne n 0 with h | h <;> simp [h, hd]

namespace HeaderA

lemma currentLevel_mem (d : HeaderData) : currentLevel d ∈ levels := by
  unfold currentLevel
  rcases h : levels.find? (fun e => e.number == d.level) with _ | e
  · rw [h, Option.getD_none]
    exact (by decide : defaultLevel ∈ levels)
  · rw [h, Option.getD_some]
    exact List.mem_of_find?_eq_some h

lemma currentLevel_number_cases (d : HeaderData) :
    (currentLevel d).number = 1 ∨ (currentLevel d).number = 2 ∨
      (currentLevel d).number = 3 := by
  have h := currentLevel_mem d
  simp only [levels, List.mem_cons, List.not_mem_nil, or_false] at h
  rcases h with h | h | h <;> rw [h] <;> simp

lemma currentLevel_eval (t a : String) (k : ℤ) (hk : k = 1 ∨ k = 2 ∨ k = 3) :
    (currentLevel ⟨t, k, a⟩).number = k := by
  rcases hk with rfl | rfl | rfl <;> rfl

lemma currentAlign_mem (d : HeaderData) : currentAlign d ∈ aligns := by
  unfold currentAlign
  rcases h : aligns.find? (fun e => e.align == d.align) with _ | e
  · rw [h, Option.getD_none]
    exact (by decide : defaultAlign ∈ aligns)
  · rw [h, Option.getD_some]
    exact List.mem_of_find?_eq_some h

lemma currentAlign_align_cases (d : HeaderData) :
    (currentAlign d).align = "left" ∨ (currentAlign d).align = "center" ∨
      (currentAlign d).align = "right" := by
  have h := currentAlign_mem d
  simp only [aligns, List.mem_cons, List.not_mem_nil, or_false] at h
  rcases h with h | h | h <;> rw [h] <;> simp

lemma currentAlign_eval (t : String) (k : ℤ) (a : String)
    (ha : a = "left" ∨ a = "center" ∨ a = "right") :
    (currentAlign ⟨t, k, a⟩).align = a := by
  rcases ha with rfl | rfl | rfl <;> rfl

end HeaderA

namespace HeaderB

lemma currentLevelB_mem (d : HeaderData) : currentLevel d ∈ levels := by
  unfold currentLevel
  rcases h : levels.find? (fun e => e.number == d.level) with _ | e
  · rw [h, Option.getD_none]
    exact (by decide : defaultLevel ∈ levels)
  · rw [h, Option.getD_some]
    exact List.mem_of_find?_eq_some h

lemma currentLevelB_number_cases (d : HeaderData) :
    (currentLevel d).number = 2 ∨ (currentLevel d).number = 3 ∨
      (currentLevel d).number = 4 := by
  have h := currentLevelB_mem d
  simp only [levels, List.mem_cons, List.not_mem_nil, or_false] at h
  rcases h with h | h | h <;> rw [h] <;> simp

lemma currentLevelB_eval (t : String) (k : ℤ) (hk : k = 2 ∨ k = 3 ∨ k = 4) :
    (currentLevel ⟨t, k⟩).number = k := by
  rcases hk with rfl | rfl | rfl <;> rfl

end HeaderB

namespace HeaderA

lemma setData_record_data (st st' : HeaderState) (r : RawRecord)
    (h : setData st (.record r) = .ok st') :
    st'.data = ⟨jsOrOpt r.text "", levelOrDefault r.level defaultLevel.number,
                jsOrOpt r.align defaultAlign.align⟩ := by
  simp only [setData, normalizeData, rawText, rawLevel, rawAlign] at h
  split at h <;> injection h with h2 <;> subst h2 <;> (try split) <;> rfl

lemma setData_record_isOk (st : HeaderState) (r : RawRecord) :
    ∃ st', setData st (.record r) = .ok st' := by
  simp only [setData, normalizeData, rawText, rawLevel, rawAlign]
  split <;> exact ⟨_, rfl⟩

lemma setData_record_innerHTML_some (st st' : HeaderState) (r : RawRecord)
    (s : String) (ht : r.text = some s)
    (h : setData st (.record r) = .ok st') :
    st'.element.innerHTML = s := by
  simp only [setData, normalizeData, rawText, rawLevel, rawAlign, ht] at h
  split at h <;> injection h with h2 <;> subst h2
  · split <;> simp [jsOrOpt_some_empty, jsOrString_empty]
  · simp at *

lemma setData_record_innerHTML_none (st st' : HeaderState) (r : RawRecord)
    (ht : r.text = none)
    (h : setData st (.record r) = .ok st') :
    st'.element.innerHTML = st.element.innerHTML := by
  simp only [setData, normalizeData, rawText, rawLevel, rawAlign, ht] at h
  split at h <;> injection h with h2 <;> subst h2
  · simp at *
  · split <;> rfl

lemma setLevel_snd (st : HeaderState) (btns : List Button) (k : ℤ)
    (p : HeaderState × List Button)
    (h : setLevel st btns k = .ok p) : p.2 = setLevelButtons k btns := by
  obtain ⟨st2, h2⟩ := setData_record_isOk (dataGet st).2
    ⟨some (dataGet st).1.text, some (.num k), some (dataGet st).1.align⟩
  simp only [setLevel, h2] at h
  injection h with h3
  rw [← h3]

lemma setAlign_snd (st : HeaderState) (btns : List Button) (a : String)
    (p : HeaderState × List Button)
    (h : setAlign st btns a = .ok p) : p.2 = setAlignButtons a btns := by
  obtain ⟨st2, h2⟩ := setData_record_isOk (dataGet st).2
    ⟨some (dataGet st).1.text, some (.num (dataGet st).1.level), some a⟩
  simp only [setAlign, h2] at h
  injection h with h3
  rw [← h3]

end HeaderA

namespace HeaderB

lemma setDataB_record_data (st st' : HeaderState) (r : RawRecord)
    (h : setData st (.record r) = .ok st') :
    st'.data = ⟨jsOrOpt r.text "", levelOrDefault r.level defaultLevel.number⟩ := by
  simp only [setData, normalizeData, rawText, rawLevel, rawAlign] at h
  split at h <;> injection h with h2 <;> subst h2 <;> (try split) <;> rfl

end HeaderB

/-! Claim theorems -/

/-- C1, counterexample: `normalize({level: 999})` keeps `999` — it does not
substitute the default level id (2), and `999` is not in the level
registry, so the claimed registry-membership invariant of the stored
record fails. -/
theorem c1_counterexample :
    HeaderA.normalizeData (.record ⟨none, some (.num 999), none⟩) =
      .ok ⟨"", 999, "left"⟩ ∧
    HeaderA.defaultLevel.number = 2 ∧
    (999 : ℤ) ∉ HeaderA.levels.map LevelEntry.number ∧
    (999 : ℤ) ≠ 2 :=
  ⟨rfl, rfl, by decide, by decide⟩

/-- C1, amended: `normalizeData` substitutes the default level id exactly
when integer-parsing of the input's level fails (`NaN`) or parses to the
falsy `0`; any other parsed value — registry member or not, e.g. `999` —
is stored verbatim.  Registry membership is instead restored at read time:
`currentLevel`/`currentAlign` always resolve to registry entries. -/
theorem c1_level_fallback (r : RawRecord) (d : HeaderA.HeaderData)
    (h : HeaderA.normalizeData (.record r) = .ok d) :
    (∀ n : ℤ, parseIntField r.level = some n → n ≠ 0 → d.level = n) ∧
    (parseIntField r.level = none → d.level = HeaderA.defaultLevel.number) ∧
    (parseIntField r.level = some 0 → d.level = HeaderA.defaultLevel.number) ∧
    (HeaderA.currentLevel d).number ∈ HeaderA.levels.map LevelEntry.number ∧
    (HeaderA.currentAlign d).align ∈ HeaderA.aligns.map AlignEntry.align := by
  simp only [HeaderA.normalizeData] at h
  injection h with h2
  subst h2
  refine ⟨?_, ?_, ?_,
    List.mem_map_of_mem _ (HeaderA.currentLevel_mem _),
    List.mem_map_of_mem _ (HeaderA.currentAlign_mem _)⟩
  · intro n hp hn
    simp [levelOrDefault, hp, hn]
  · intro hp
    simp [levelOrDefault, hp]
  · intro hp
    simp [levelOrDefault, hp]

/-- C1, witness: the amended theorem applied to `{level: 999}` — the value
is stored verbatim, and read-time resolution lands in the registry. -/
theorem c1_witness :
    (⟨"", 999, "left"⟩ : HeaderA.HeaderData).level = 999 ∧
    (HeaderA.currentLevel ⟨"", 999, "left"⟩).number ∈
      HeaderA.levels.map LevelEntry.number :=
  ⟨(c1_level_fallback ⟨none, some (.num 999), none⟩ ⟨"", 999, "left"⟩ rfl).1
      999 rfl (by decide),
   (c1_level_fallback ⟨none, some (.num 999), none⟩ ⟨"", 999, "left"⟩
      rfl).2.2.2.1⟩

/-- C2: the code throws on `null` input, contradicting the claim.
`typeof null === 'object'`, so the guard in `normalizeData` does not
replace `null` and `data.text` raises a `TypeError` (both variants); the
constructor's `data.align` access raises likewise; and `validate` raises
on a record without `text` instead of returning a boolean. -/
theorem c2_null_throws :
    HeaderA.normalizeData .jsNull = .error () ∧
    HeaderB.normalizeData .jsNull = .error () ∧
    HeaderA.construct .jsNull none = .error () ∧
    HeaderA.validate ⟨none, none, none⟩ = .error () :=
  ⟨rfl, rfl, rfl, rfl⟩

/-- C3: normalization is idempotent — re-normalizing the canonical record
produced by `normalizeData` (all fields present) returns it unchanged, in
both variants. -/
theorem c3_normalize_idempotent (x : RawData) :
    (∀ r, HeaderA.normalizeData x = .ok r →
        HeaderA.normalizeData (recordToRawA r) = .ok r) ∧
    (∀ r, HeaderB.normalizeData x = .ok r →
        HeaderB.normalizeData (recordToRawB r) = .ok r) := by
  constructor
  · intro r h
    cases x with
    | jsNull => simp [HeaderA.normalizeData] at h
    | undef =>
        simp only [HeaderA.normalizeData] at h
        injection h with h2
        subst h2
        rfl
    | prim =>
        simp only [HeaderA.normalizeData] at h
        injection h with h2
        subst h2
        rfl
    | record rr =>
        simp only [HeaderA.normalizeData] at h
        injection h with h2
        subst h2
        simp only [recordToRawA, HeaderA.normalizeData]
        refine congrArg Except.ok ?_
        rw [jsOrOpt_some_empty,
            levelOrDefault_num _ _ (levelOrDefault_ne_zero _ _ (by decide)),
            jsOrOpt_some_of_ne _ _ (jsOrOpt_ne_empty _ _ (by decide))]
  · intro r h
    cases x with
    | jsNull => simp [HeaderB.normalizeData] at h
    | undef =>
        simp only [HeaderB.normalizeData] at h
        injection h with h2
        subst h2
        rfl
    | prim =>
        simp only [HeaderB.normalizeData] at h
        injection h with h2
        subst h2
        rfl
    | record rr =>
        simp only [HeaderB.normalizeData] at h
        injection h with h2
        subst h2
        simp only [recordToRawB, HeaderB.normalizeData]
        refine congrArg Except.ok ?_
        rw [jsOrOpt_some_empty,
            levelOrDefault_num _ _ (levelOrDefault_ne_zero _ _ (by decide))]

/-- C3, witness: idempotence at a concrete input (one whose level is not
even a registry member). -/
theorem c3_witness :
    HeaderA.normalizeData (recordToRawA ⟨"a", 999, "x"⟩) =
      .ok ⟨"a", 999, "x"⟩ :=
  (c3_normalize_idempotent
      (.record ⟨some "a", some (.num 999), some "x"⟩)).1 ⟨"a", 999, "x"⟩ rfl

/-- C4, counterexample: neither variant has four levels (both registries
have three entries), and in the paste variant `HeaderB` (paste tags
H2/H3/H4) the configured default is the THIRD registry entry (level 4),
not the first (level 2): `normalize({})` there yields level 4. -/
theorem c4_counterexample :
    HeaderB.normalizeData (.record ⟨none, none, none⟩) = .ok ⟨"", 4⟩ ∧
    HeaderA.levels.length = 3 ∧
    HeaderB.levels.length = 3 ∧
    (HeaderB.levels.getD 0 ⟨0, ""⟩).number = 2 ∧
    HeaderB.defaultLevel.number = 4 ∧
    (4 : ℤ) ≠ 2 :=
  ⟨rfl, rfl, rfl, rfl, rfl, by decide⟩

/-- C4, amended: `normalize({})` yields the configured default level id,
the first alignment id and empty text; both variants have exactly three
levels; the configured default is the second entry (level 2) in the
H1–H3 variant and the third entry (level 4) in the H2–H4 paste variant. -/
theorem c4_default_substitution :
    HeaderA.normalizeData (.record ⟨none, none, none⟩) =
      .ok ⟨"", 2, "left"⟩ ∧
    (HeaderA.levels.getD 1 ⟨0, ""⟩).number = 2 ∧
    (HeaderA.aligns.getD 0 ⟨""⟩).align = "left" ∧
    HeaderA.levels.length = 3 ∧
    HeaderB.normalizeData (.record ⟨none, none, none⟩) = .ok ⟨"", 4⟩ ∧
    (HeaderB.levels.getD 2 ⟨0, ""⟩).number = 4 ∧
    HeaderB.levels.length = 3 :=
  ⟨rfl, rfl, rfl, rfl, rfl, rfl, rfl⟩

/-- C5: after `merge(other)` the displayed text and the stored text are the
current text concatenated with `other.text` (plain append), and the
resolved level and alignment are those of the current record — whatever
`other.level` and `other.align` were. -/
theorem c5_merge_concat (st st' : HeaderA.HeaderState)
    (other : HeaderA.HeaderData)
    (h : HeaderA.merge st other = .ok st') :
    st'.element.innerHTML = st.element.innerHTML ++ other.text ∧
    st'.data.text = st.element.innerHTML ++ other.text ∧
    (HeaderA.currentLevel st'.data).number =
      (HeaderA.currentLevel st.data).number ∧
    (HeaderA.currentAlign st'.data).align =
      (HeaderA.currentAlign st.data).align := by
  simp only [HeaderA.merge, HeaderA.dataGet] at h
  have hLne : (HeaderA.currentLevel st.data).number ≠ 0 := by
    rcases HeaderA.currentLevel_number_cases st.data with hx | hx | hx <;>
      simp [hx]
  have hAne : (HeaderA.currentAlign st.data).align ≠ "" := by
    rcases HeaderA.currentAlign_align_cases st.data with hx | hx | hx <;>
      simp [hx]
  have hdata := HeaderA.setData_record_data _ _ _ h
  have hhtml := HeaderA.setData_record_innerHTML_some _ _ _ _ rfl h
  have hdata' : st'.data =
      ⟨st.element.innerHTML ++ other.text,
       (HeaderA.currentLevel st.data).number,
       (HeaderA.currentAlign st.data).align⟩ := by
    rw [hdata, jsOrOpt_some_empty, levelOrDefault_num _ _ hLne,
        jsOrOpt_some_of_ne _ _ hAne]
  refine ⟨hhtml, by rw [hdata'], ?_, ?_⟩
  · rw [hdata']
    exact HeaderA.currentLevel_eval _ _ _
      (HeaderA.currentLevel_number_cases st.data)
  · rw [hdata']
    exact HeaderA.currentAlign_eval _ _ _
      (HeaderA.currentAlign_align_cases st.data)

/-- C5, witness: merging `{text: 'cd', level: 1, align: 'right'}` into a
block displaying `'ab'` at level 3 / center yields text `'abcd'` with
level 3 and center alignment retained. -/
theorem c5_witness :
    HeaderA.merge
        ⟨"left", none, ⟨"ab", 3, "center"⟩, ⟨"H3", "ab", "center", "", true⟩⟩
        ⟨"cd", 1, "right"⟩ =
      .ok ⟨"left", none, ⟨"abcd", 3, "center"⟩,
           ⟨"H3", "abcd", "center", "", true⟩⟩ ∧
    (⟨"left", none, ⟨"abcd", 3, "center"⟩,
      ⟨"H3", "abcd", "center", "", true⟩⟩ :
        HeaderA.HeaderState).element.innerHTML = "ab" ++ "cd" :=
  ⟨rfl,
   (c5_merge_concat
      ⟨"left", none, ⟨"ab", 3, "center"⟩, ⟨"H3", "ab", "center", "", true⟩⟩
      ⟨"left", none, ⟨"abcd", 3, "center"⟩, ⟨"H3", "abcd", "center", "", true⟩⟩
      ⟨"cd", 1, "right"⟩ rfl).1⟩

/-- C6: build-then-extract round-trips — for any constructed state,
`save` on the rendered element returns exactly the normalized record's
text (which equals the input's `text` whenever one was supplied) together
with the currently selected level and align ids. -/
theorem c6_round_trip (d : RawData) (ph : Option String)
    (st : HeaderA.HeaderState)
    (h : HeaderA.construct d ph = .ok st) :
    HeaderA.save st st.element =
      ⟨st.data.text, (HeaderA.currentLevel st.data).number,
       (HeaderA.currentAlign st.data).align⟩ ∧
    (∀ r, HeaderA.normalizeData d = .ok r → st.data = r) ∧
    (∀ s, rawText d = some s → st.data.text = s) := by
  cases d with
  | jsNull => simp [HeaderA.construct] at h
  | undef => simp [HeaderA.construct] at h
  | prim =>
      simp only [HeaderA.construct, HeaderA.normalizeData] at h
      injection h with h2
      subst h2
      refine ⟨?_, ?_, ?_⟩
      · simp [HeaderA.save, HeaderA.getTag, jsOrString_empty]
      · intro r hr
        simp only [HeaderA.normalizeData, Except.ok.injEq] at hr
        subst hr
        rfl
      · intro s hs
        simp [rawText] at hs
  | record rr =>
      simp only [HeaderA.construct, HeaderA.normalizeData] at h
      injection h with h2
      subst h2
      refine ⟨?_, ?_, ?_⟩
      · simp [HeaderA.save, HeaderA.getTag, jsOrString_empty]
      · intro r hr
        simp only [HeaderA.normalizeData, Except.ok.injEq] at hr
        subst hr
        rfl
      · intro s hs
        simp only [rawText] at hs
        simp [hs, jsOrOpt_some_empty]

/-- C6, witness: the spec scenario — constructing with
`{text: 'Hi', level: 3, align: 'center'}` and placeholder `'Title'` and
saving the rendered element returns `{text: 'Hi', level: 3, align:
'center'}`. -/
theorem c6_witness :
    HeaderA.construct (.record ⟨some "Hi", some (.num 3), some "center"⟩)
        (some "Title") = .ok sampleState ∧
    HeaderA.save sampleState sampleState.element = ⟨"Hi", 3, "center"⟩ :=
  ⟨rfl,
   (c6_round_trip (.record ⟨some "Hi", some (.num 3), some "center"⟩)
      (some "Title") sampleState rfl).1.trans (by decide)⟩

/-- C7, counterexample: in the H2–H4 variant, pasting content with the
unrecognized tag name `DIV` stores level 2, while that variant's
configured default level id is 4 — so the fallback is NOT the default
level id there. -/
theorem c7_counterexample :
    HeaderB.onPaste stB0 ⟨"DIV", "x"⟩ =
      .ok ⟨none, ⟨"x", 2⟩, ⟨"H4", "x", "", false⟩⟩ ∧
    (⟨none, ⟨"x", 2⟩, ⟨"H4", "x", "", false⟩⟩ :
        HeaderB.HeaderState).data.level = 2 ∧
    HeaderB.defaultLevel.number = 4 ∧
    (2 : ℤ) ≠ 4 :=
  ⟨rfl, rfl, rfl, by decide⟩

/-- C7, amended: pasted `H3` content yields level 3 in both variants, and
an unrecognized tag name yields the hardcoded fallback level 2 in both
variants; 2 is the default level id of the H1–H3 variant, but the H2–H4
variant's default level id is 4. -/
theorem c7_paste_mapping
    (stA stA' : HeaderA.HeaderState) (stB stB' : HeaderB.HeaderState)
    (c : PasteContent)
    (hA : HeaderA.onPaste stA c = .ok stA')
    (hB : HeaderB.onPaste stB c = .ok stB') :
    (c.tagName = "H3" → stA'.data.level = 3 ∧ stB'.data.level = 3) ∧
    (c.tagName ∉ (["H1", "H2", "H3"] : List String) →
      stA'.data.level = 2) ∧
    (c.tagName ∉ (["H2", "H3", "H4"] : List String) →
      stB'.data.level = 2) ∧
    HeaderA.defaultLevel.number = 2 ∧
    HeaderB.defaultLevel.number = 4 := by
  simp only [HeaderA.onPaste] at hA
  simp only [HeaderB.onPaste] at hB
  have hdA := HeaderA.setData_record_data _ _ _ hA
  have hdB := HeaderB.setDataB_record_data _ _ _ hB
  refine ⟨?_, ?_, ?_, rfl, rfl⟩
  · intro ht
    constructor
    · rw [hdA]
      simp [ht, levelOrDefault, parseIntField]
    · rw [hdB]
      simp [ht, levelOrDefault, parseIntField]
  · intro hn
    have h1 : c.tagName ≠ "H1" := fun hh => hn (by simp [hh])
    have h3 : c.tagName ≠ "H3" := fun hh => hn (by simp [hh])
    rw [hdA]
    simp [h1, h3, levelOrDefault, parseIntField]
  · intro hn
    have h2 : c.tagName ≠ "H2" := fun hh => hn (by simp [hh])
    have h3 : c.tagName ≠ "H3" := fun hh => hn (by simp [hh])
    have h4 : c.tagName ≠ "H4" := fun hh => hn (by simp [hh])
    rw [hdB]
    simp [h2, h3, h4, levelOrDefault, parseIntField]

/-- C7, witness: pasting `H3` content into the default-constructed state
of each variant stores level 3. -/
theorem c7_witness :
    HeaderA.onPaste stA0 ⟨"H3", "x"⟩ =
      .ok ⟨"left", none, ⟨"x", 3, "left"⟩,
           ⟨"H2", "x", "left", "", false⟩⟩ ∧
    HeaderB.onPaste stB0 ⟨"H3", "x"⟩ =
      .ok ⟨none, ⟨"x", 3⟩, ⟨"H4", "x", "", false⟩⟩ ∧
    (⟨"left", none, ⟨"x", 3, "left"⟩, ⟨"H2", "x", "left", "", false⟩⟩ :
        HeaderA.HeaderState).data.level = 3 ∧
    (⟨none, ⟨"x", 3⟩, ⟨"H4", "x", "", false⟩⟩ :
        HeaderB.HeaderState).data.level = 3 :=
  ⟨rfl, rfl,
   ((c7_paste_mapping stA0
        ⟨"left", none, ⟨"x", 3, "left"⟩, ⟨"H2", "x", "left", "", false⟩⟩
        stB0 ⟨none, ⟨"x", 3⟩, ⟨"H4", "x", "", false⟩⟩
        ⟨"H3", "x"⟩ rfl rfl).1 rfl).1,
   ((c7_paste_mapping stA0
        ⟨"left", none, ⟨"x", 3, "left"⟩, ⟨"H2", "x", "left", "", false⟩⟩
        stB0 ⟨none, ⟨"x", 3⟩, ⟨"H4", "x", "", false⟩⟩
        ⟨"H3", "x"⟩ rfl rfl).1 rfl).2⟩

/-- C8: with the settings rendered, for every registry level id `k`,
`setLevel(k)` leaves exactly one level-group button highlighted — the one
storing `k` — and does not touch the alignment group; symmetrically for
`setAlign(a)`; and the freshly rendered settings already carry exactly one
highlighted button per group. -/
theorem c8_settings_highlight (st : HeaderA.HeaderState) (k : ℤ) (a : String)
    (hk : k ∈ HeaderA.levels.map LevelEntry.number)
    (ha : a ∈ HeaderA.aligns.map AlignEntry.align)
    (pL pA : HeaderA.HeaderState × List HeaderA.Button)
    (hL : HeaderA.setLevel st (HeaderA.renderSettings st) k = .ok pL)
    (hA : HeaderA.setAlign st (HeaderA.renderSettings st) a = .ok pA) :
    ((HeaderA.renderSettings st).filter
        (fun b => HeaderA.isLevelBtn b && b.active)).length = 1 ∧
    ((HeaderA.renderSettings st).filter
        (fun b => HeaderA.isAlignBtn b && b.active)).length = 1 ∧
    (pL.2.filter (fun b => HeaderA.isLevelBtn b && b.active)).map
        HeaderA.Button.data = [.level k] ∧
    pL.2.filter (fun b => HeaderA.isAlignBtn b) =
      (HeaderA.renderSettings st).filter (fun b => HeaderA.isAlignBtn b) ∧
    (pA.2.filter (fun b => HeaderA.isAlignBtn b && b.active)).map
        HeaderA.Button.data = [.align a] ∧
    pA.2.filter (fun b => HeaderA.isLevelBtn b) =
      (HeaderA.renderSettings st).filter (fun b => HeaderA.isLevelBtn b) := by
  rw [HeaderA.setLevel_snd _ _ _ _ hL, HeaderA.setAlign_snd _ _ _ _ hA]
  simp only [HeaderA.levels, HeaderA.aligns, List.map, List.mem_cons,
    List.not_mem_nil, or_false] at hk ha
  have hc := HeaderA.currentLevel_number_cases st.data
  have hd := HeaderA.currentAlign_align_cases st.data
  rcases hk with rfl | rfl | rfl <;> rcases ha with rfl | rfl | rfl <;>
    rcases hc with hc | hc | hc <;> rcases hd with hd | hd | hd <;>
      simp [HeaderA.renderSettings, HeaderA.setLevelButtons,
        HeaderA.setAlignButtons, HeaderA.levels, HeaderA.aligns,
        HeaderA.isLevelBtn, HeaderA.isAlignBtn, hc, hd]

/-- C8, witness: in the default-constructed state, after rendering
settings and clicking level 1 and alignment `center`, each group has
exactly the expected single highlighted button. -/
theorem c8_witness :
    (([⟨.level 1, true⟩, ⟨.level 2, false⟩, ⟨.level 3, false⟩,
       ⟨.align "left", true⟩, ⟨.align "center", false⟩,
       ⟨.align "right", false⟩] : List HeaderA.Button).filter
        (fun b => HeaderA.isLevelBtn b && b.active)).map
      HeaderA.Button.data = [.level 1] ∧
    (([⟨.level 1, false⟩, ⟨.level 2, true⟩, ⟨.level 3, false⟩,
       ⟨.align "left", false⟩, ⟨.align "center", true⟩,
       ⟨.align "right", false⟩] : List HeaderA.Button).filter
        (fun b => HeaderA.isAlignBtn b && b.active)).map
      HeaderA.Button.data = [.align "center"] :=
  ⟨(c8_settings_highlight stA0 1 "center" (by decide) (by decide)
      (⟨"left", none, ⟨"", 1, "left"⟩, ⟨"H2", "", "left", "", false⟩⟩,
       [⟨.level 1, true⟩, ⟨.level 2, false⟩, ⟨.level 3, false⟩,
        ⟨.align "left", true⟩, ⟨.align "center", false⟩,
        ⟨.align "right", false⟩])
      (⟨"left", none, ⟨"", 2, "center"⟩, ⟨"H2", "", "left", "", false⟩⟩,
       [⟨.level 1, false⟩, ⟨.level 2, true⟩, ⟨.level 3, false⟩,
        ⟨.align "left", false⟩, ⟨.align "center", true⟩,
        ⟨.align "right", false⟩])
      rfl rfl).2.2.1,
   (c8_settings_highlight stA0 1 "center" (by decide) (by decide)
      (⟨"left", none, ⟨"", 1, "left"⟩, ⟨"H2", "", "left", "", false⟩⟩,
       [⟨.level 1, true⟩, ⟨.level 2, false⟩, ⟨.level 3, false⟩,
        ⟨.align "left", true⟩, ⟨.align "center", false⟩,
        ⟨.align "right", false⟩])
      (⟨"left", none, ⟨"", 2, "center"⟩, ⟨"H2", "", "left", "", false⟩⟩,
       [⟨.level 1, false⟩, ⟨.level 2, true⟩, ⟨.level 3, false⟩,
        ⟨.align "left", false⟩, ⟨.align "center", true⟩,
        ⟨.align "right", false⟩])
      rfl rfl).2.2.2.2.1⟩

/-- C9: the data setter never clobbers displayed text when the payload
omits `text` (the content survives both the tag-swap branch and the
no-swap branch), and overwrites it with the payload's `text` when one is
supplied. -/
theorem c9_text_frame (st st' : HeaderA.HeaderState) (raw : RawData)
    (h : HeaderA.setData st raw = .ok st') :
    (rawText raw = none → st'.element.innerHTML = st.element.innerHTML) ∧
    (∀ s, rawText raw = some s → st'.element.innerHTML = s) := by
  cases raw with
  | jsNull => simp [HeaderA.setData, HeaderA.normalizeData] at h
  | record r =>
      constructor
      · intro ht
        exact HeaderA.setData_record_innerHTML_none _ _ _ ht h
      · intro s ht
        exact HeaderA.setData_record_innerHTML_some _ _ _ _ ht h
  | undef =>
      constructor
      · intro _
        simp [HeaderA.setData, HeaderA.normalizeData, rawText, rawLevel] at h
        rw [← h]
      · intro s hs
        simp [rawText] at hs
  | prim =>
      constructor
      · intro _
        simp [HeaderA.setData, HeaderA.normalizeData, rawText, rawLevel] at h
        rw [← h]
      · intro s hs
        simp [rawText] at hs

/-- C9, witness: a level-only partial update (`{level: 1}`) leaves the
displayed text unchanged. -/
theorem c9_witness :
    HeaderA.setData stA0 (.record ⟨none, some (.num 1), none⟩) =
      .ok ⟨"left", none, ⟨"", 1, "left"⟩, ⟨"H2", "", "left", "", false⟩⟩ ∧
    (⟨"left", none, ⟨"", 1, "left"⟩, ⟨"H2", "", "left", "", false⟩⟩ :
        HeaderA.HeaderState).element.innerHTML = stA0.element.innerHTML :=
  ⟨rfl,
   (c9_text_frame stA0
      ⟨"left", none, ⟨"", 1, "left"⟩, ⟨"H2", "", "left", "", false⟩⟩
      (.record ⟨none, some (.num 1), none⟩) rfl).1 rfl⟩

/-- C10: whatever the stored record holds — registry member or not —
`save` returns a level among the registry level numbers and an align
among the registry align ids, via the `currentLevel`/`currentAlign`
default fallbacks. -/
theorem c10_save_registry (st : HeaderA.HeaderState)
    (content : HeaderA.Element) :
    (HeaderA.save st content).level ∈
      HeaderA.levels.map LevelEntry.number ∧
    (HeaderA.save st content).align ∈
      HeaderA.aligns.map AlignEntry.align :=
  ⟨List.mem_map_of_mem _ (HeaderA.currentLevel_mem st.data),
   List.mem_map_of_mem _ (HeaderA.currentAlign_mem st.data)⟩
